import Mathlib

/-!
Shallow embedding of the `accounts` app of the drf-auth repository.

The embedding covers the data model (`User`, a list-backed credential store),
the token signer, the JWT session issuer, and the five request handlers
`signup`, `confirm_email`, `resend_verification_mail`, `login` and
`refresh_token` from `src/accounts/views.py` together with the serializer
logic from `src/accounts/serializers.py`, the user manager from
`src/accounts/models.py` and the helpers from `src/accounts/utils.py`.

External effects are made explicit parameters: the outcome of the email
transport is passed in as an `Except String Unit` value, the wall clock and
the configured `TOKEN_EXPIRY` are passed as naturals, and the signed tokens
carry an abstract signature-validity bit.
-/

namespace DrfAuth

/-- Modelled from the spec: email well-formedness as enforced by the
framework's `EmailField` (validation code outside this repository).  A
well-formed address has exactly one `at` separator, a nonempty local part,
a nonempty domain part and no spaces. -/
def valid_email (e : String) : Bool :=
  let cs := e.data
  (cs.count '@' == 1) && (cs.head? != some '@') && (cs.getLast? != some '@')
    && !(cs.contains ' ')

/-- Case normalisation performed by `CustomUserManager.create_user` via the
framework's `normalize_email` (`src/accounts/models.py:16`): the domain part
after the last separator is lowercased, other strings are left unchanged. -/
def normalize_email (e : String) : String :=
  if e.data.contains '@' then
    let dom := (e.data.reverse.takeWhile (fun c => c != '@')).reverse
    let loc := e.data.take (e.data.length - dom.length - 1)
    String.mk (loc ++ '@' :: dom.map Char.toLower)
  else e

/-- Modelled from the spec: the framework's password hasher used by
`set_password` (outside this repository), abstracted as an injective
deterministic function of the raw password. -/
def make_password (p : String) : String :=
  "pbkdf2$" ++ p

/-- `User.check_password`: hash the supplied password and compare with the
stored hash (framework code, modelled from the spec's "supplied password
hash matches"). -/
def check_password (p stored : String) : Bool :=
  make_password p == stored

/-- A user row (`src/accounts/models.py:34`): primary key, unique email,
stored password hash (the model's `password` field) and the `is_active`
flag, which defaults to `false`. -/
structure User where
  id : Nat
  email : String
  password : String
  is_active : Bool
deriving Repr, DecidableEq

/-- The credential store: the list of persisted user rows. -/
abbrev Store := List User

/-- `User.objects.filter(email=email).first()` /
`User.objects.get(email=email)`: first row with the given email. -/
def findByEmail (s : Store) (e : String) : Option User :=
  s.find? (fun u => u.email == e)

/-- `get_object_or_404(User, pk=user_id)`: first row with the given primary
key. -/
def findById (s : Store) (i : Nat) : Option User :=
  s.find? (fun u => u.id == i)

/-- The next auto-generated primary key: one more than the largest key in
the store, hence fresh. -/
def freshId (s : Store) : Nat :=
  s.foldr (fun u m => max u.id m) 0 + 1

/-- `user.delete()`: remove the row with the given primary key. -/
def deleteUser (s : Store) (i : Nat) : Store :=
  s.filter (fun u => u.id != i)

/-- `user.is_active = True; user.save()`: persist the activation of the row
with the given primary key. -/
def setActive (s : Store) (i : Nat) : Store :=
  s.map (fun u => if u.id == i then { u with is_active := true } else u)

/-- Modelled from the spec: a value produced by the framework's timestamp
signer (`signer.sign(user.pk)` in `src/accounts/utils.py:20`, signer code
outside this repository).  It embeds the subject and the signing timestamp;
`sigOk` abstracts whether the signature verifies under the server secret. -/
structure SignedToken where
  subject : Nat
  timestamp : Nat
  sigOk : Bool
deriving Repr, DecidableEq

/-- The two failure modes of `signer.unsign`: `SignatureExpired` and
`BadSignature`. -/
inductive SignError where
  | expired
  | badSignature
deriving Repr, DecidableEq

/-- Modelled from the spec (section 4.1): `verify(token, maxAge)` fails with
`Expired` if `now - embeddedTimestamp > maxAge`, fails with `Invalid` if the
signature does not match, and otherwise recovers the subject.  The spec
lists the expiry check first, so an over-age token fails as expired
regardless of its signature bit. -/
def unsign (t : SignedToken) (maxAge now : Nat) : Except SignError Nat :=
  if now - t.timestamp > maxAge then .error .expired
  else if !t.sigOk then .error .badSignature
  else .ok t.subject

/-- The two JWT kinds minted by the session issuer. -/
inductive JwtKind where
  | access
  | refresh
deriving Repr, DecidableEq

/-- An outgoing JWT minted by the session issuer (`RefreshToken.for_user` /
`refresh.access_token`), carrying the user id as its claim. -/
structure Jwt where
  userId : Nat
  kind : JwtKind
deriving Repr, DecidableEq

/-- Modelled from the spec: an incoming refresh-token string as seen by the
JWT library's `RefreshToken(...)` constructor (outside this repository).
The flags abstract the three checks the constructor performs: signature,
expiry, and the `refresh` token type. -/
structure JwtInput where
  userId : Nat
  isRefresh : Bool
  sigOk : Bool
  expired : Bool
deriving Repr, DecidableEq

/-- `RefreshToken(refresh_token)` succeeds exactly when the signature
verifies, the token is unexpired and its type claim is `refresh`. -/
def jwt_valid (t : JwtInput) : Bool :=
  t.sigOk && !t.expired && t.isRefresh

/-- The response bodies the handlers can produce: a `message` dictionary, a
framework-generated `detail` dictionary, the login token dictionary
(refresh, access, message), the refresh endpoint's access-only dictionary,
or a serializer error dictionary. -/
inductive Body where
  | message (m : String)
  | detail (m : String)
  | loginTokens (refresh access : Jwt) (m : String)
  | accessOnly (access : Jwt)
  | fieldErrors (errs : List (String × String))
deriving Repr, DecidableEq

/-- An HTTP response: status code and body. -/
structure Response where
  status : Nat
  body : Body
deriving Repr, DecidableEq

/-- The `{email, password}` request payload of `signup` and `login`. -/
structure Credentials where
  email : String
  password : String
deriving Repr, DecidableEq

/-- Serializer field errors for a credentials payload: the `EmailField`
message from `src/accounts/serializers.py:17` and the framework's blank
message for the required password. -/
def credFieldErrors (r : Credentials) : List (String × String) :=
  (if valid_email r.email then [] else [("email", "Enter a valid email address.")])
    ++ (if r.password == "" then [("password", "This field may not be blank.")] else [])

/-- `SignUpSerializer.is_valid()`: the email is well-formed, no stored row
already has this email (the `UniqueValidator` of
`src/accounts/serializers.py:12`), and the password is present. -/
def signupValid (s : Store) (r : Credentials) : Bool :=
  valid_email r.email && (findByEmail s r.email).isNone && r.password != ""

/-- Serializer errors returned by `signup` when validation fails, including
the `UniqueValidator` message "Email already exists". -/
def signupErrors (s : Store) (r : Credentials) : List (String × String) :=
  credFieldErrors r
    ++ (if valid_email r.email && (findByEmail s r.email).isSome then
          [("email", "Email already exists")]
        else [])

/-- The row created by `SignUpSerializer.create`
(`src/accounts/serializers.py:25` with `create_user` from
`src/accounts/models.py:13`): fresh primary key, normalised email, hashed
password, and the model's `is_active = false` default (re-asserted by the
`signup` view). -/
def newUser (s : Store) (r : Credentials) : User :=
  { id := freshId s, email := normalize_email r.email,
    password := make_password r.password, is_active := false }

/-- `signup` (`src/accounts/views.py:37`): validate, create the user row
with the normalised email, hashed password and `is_active = false`, then
dispatch the verification email.  If dispatch raises, delete the row and
answer 400 with the wrapped reason; otherwise answer 201.  The transport
outcome is the `dispatch` parameter. -/
def signup (s : Store) (r : Credentials) (dispatch : Except String Unit) :
    Store × Response :=
  if signupValid s r then
    match dispatch with
    | .error e =>
        (deleteUser (s ++ [newUser s r]) (freshId s),
         { status := 400,
           body := .message ("failed to send verification email: " ++ e) })
    | .ok _ =>
        (s ++ [newUser s r],
         { status := 201, body := .message "User created successfully" })
  else
    (s, { status := 400, body := .fieldErrors (signupErrors s r) })

/-- `confirm_email` (`src/accounts/views.py:75`): unsign the token with
`max_age = TOKEN_EXPIRY`, look the user up by the recovered id, and activate
an inactive user.  An expired or bad signature answers 400 with the
corresponding message; an already-active user answers 400; a missing user
raises `Http404` from `get_object_or_404` (the `User.DoesNotExist` branch of
the view is unreachable), which the framework's exception handler turns into
a 404 `detail` response. -/
def confirm_email (s : Store) (t : SignedToken) (token_expiry now : Nat) :
    Store × Response :=
  match unsign t token_expiry now with
  | .error .expired =>
      (s, { status := 400,
            body := .message "Token has expired. Request a new one." })
  | .error .badSignature =>
      (s, { status := 400, body := .message "Invalid token" })
  | .ok uid =>
      match findById s uid with
      | none => (s, { status := 404, body := .detail "Not found." })
      | some u =>
          if !u.is_active then
            (setActive s uid,
             { status := 200, body := .message "Email verified successfully!" })
          else
            (s, { status := 400, body := .message "Email is already verified." })

/-- `resend_verification_mail` (`src/accounts/views.py:123`): require the
email query parameter, look the user up, reject an active user, then
dispatch.  A transport failure raised by `send_verification_email` is not
caught by the view (its only handler is `User.DoesNotExist`); it reaches
`custom_exception_handler` (`src/accounts/utils.py:33`), which answers 404
"Not Found" for exceptions the framework handler does not recognise. -/
def resend_verification_mail (s : Store) (email : Option String)
    (dispatch : Except String Unit) : Store × Response :=
  match email with
  | none => (s, { status := 400, body := .message "No email is provided" })
  | some e =>
      if e == "" then
        (s, { status := 400, body := .message "No email is provided" })
      else
        match findByEmail s e with
        | none => (s, { status := 404, body := .message "User not found" })
        | some u =>
            if u.is_active then
              (s, { status := 400, body := .message "Email is already verified." })
            else
              match dispatch with
              | .error _ => (s, { status := 404, body := .message "Not Found" })
              | .ok _ =>
                  (s, { status := 200, body := .message "Verification email sent" })

/-- `LoginSerializer` field validation: well-formed email and nonempty
password; otherwise `is_valid()` is false and the view answers 400 with the
serializer errors. -/
def loginFieldValid (r : Credentials) : Bool :=
  valid_email r.email && r.password != ""

/-- `login` (`src/accounts/views.py:167`) with
`LoginSerializer.validate` (`src/accounts/serializers.py:36`): look the user
up by email; an absent user or a failed password check raises
`AuthenticationFailed` with "Invalid email or password.", an inactive user
with the verification message, both answered as 401; otherwise mint the
refresh/access pair for the user id and answer 200.  The store is not
modified. -/
def login (s : Store) (r : Credentials) : Response :=
  if loginFieldValid r then
    match findByEmail s r.email with
    | none => { status := 401, body := .message "Invalid email or password." }
    | some u =>
        if !(check_password r.password u.password) then
          { status := 401, body := .message "Invalid email or password." }
        else if !u.is_active then
          { status := 401,
            body := .message "Email not verified. Please verify your email." }
        else
          { status := 200,
            body := .loginTokens { userId := u.id, kind := .refresh }
              { userId := u.id, kind := .access } "Login successful" }
  else
    { status := 400, body := .fieldErrors (credFieldErrors r) }

/-- The `refresh` field of a refresh request: absent, blank, or a token
string (abstracted as `JwtInput`). -/
inductive RefreshField where
  | blank
  | tok (t : JwtInput)
deriving Repr, DecidableEq

/-- `refresh_token` (`src/accounts/views.py:197`): `RefreshTokenSerializer`
requires a nonblank `refresh` field (otherwise 400 with the field error);
then `RefreshToken(...)` either validates, answering 200 with a fresh access
token only, or raises, answering 400 "Invalid refresh token.". -/
def refresh_token (req : Option RefreshField) : Response :=
  match req with
  | none =>
      { status := 400, body := .fieldErrors [("refresh", "This field is required.")] }
  | some .blank =>
      { status := 400, body := .fieldErrors [("refresh", "This field may not be blank.")] }
  | some (.tok t) =>
      if jwt_valid t then
        { status := 200, body := .accessOnly { userId := t.userId, kind := .access } }
      else
        { status := 400, body := .message "Invalid refresh token." }

/-! ### Store lemmas -/

theorem mem_id_le_fold {u : User} :
    ∀ {s : Store}, u ∈ s → u.id ≤ s.foldr (fun v m => max v.id m) 0
  | v :: s, h => by
    rcases List.mem_cons.mp h with rfl | h'
    · exact Nat.le_max_left _ _
    · exact le_trans (mem_id_le_fold h') (Nat.le_max_right _ _)

theorem mem_id_lt_freshId {u : User} {s : Store} (h : u ∈ s) : u.id < freshId s :=
  Nat.lt_succ_of_le (mem_id_le_fold h)

theorem findById_freshId_none (s : Store) : findById s (freshId s) = none := by
  apply List.find?_eq_none.mpr
  intro u hu
  simp only [beq_iff_eq]
  exact Nat.ne_of_lt (mem_id_lt_freshId hu)

theorem find_append_of_none {p : User → Bool} (s t : Store)
    (h : s.find? p = none) : (s ++ t).find? p = t.find? p := by
  induction s with
  | nil => rfl
  | cons v s ih =>
    rw [List.cons_append]
    cases hp : p v with
    | true =>
        rw [List.find?_cons_of_pos _ hp] at h
        exact absurd h (by simp)
    | false =>
        rw [List.find?_cons_of_neg _ (by simp [hp])] at h
        rw [List.find?_cons_of_neg _ (by simp [hp])]
        exact ih h

theorem deleteUser_append_fresh (s : Store) (u : User) (hu : u.id = freshId s) :
    deleteUser (s ++ [u]) (freshId s) = s := by
  unfold deleteUser
  rw [List.filter_append]
  have h1 : s.filter (fun v => v.id != freshId s) = s := by
    rw [List.filter_eq_self]
    intro v hv
    simp only [bne_iff_ne, ne_eq]
    exact Nat.ne_of_lt (mem_id_lt_freshId hv)
  have h2 : [u].filter (fun v => v.id != freshId s) = [] := by
    simp [List.filter_cons, hu]
  rw [h1, h2, List.append_nil]

theorem findById_append_fresh (s : Store) (u : User) (hu : u.id = freshId s) :
    findById (s ++ [u]) (freshId s) = some u := by
  unfold findById
  rw [find_append_of_none _ _ (findById_freshId_none s)]
  exact List.find?_cons_of_pos _ (by simp [hu])

theorem find_cons_pos {p : User → Bool} {v : User} (s : Store) (h : p v = true) :
    (v :: s).find? p = some v := by
  simp [List.find?, h]

theorem find_cons_neg {p : User → Bool} {v : User} (s : Store) (h : p v = false) :
    (v :: s).find? p = s.find? p := by
  simp [List.find?, h]

theorem setActive_email (v : User) (i : Nat) :
    (if v.id == i then { v with is_active := true } else v).email = v.email := by
  split <;> rfl

theorem findByEmail_setActive (s : Store) (i : Nat) (e : String) :
    findByEmail (setActive s i) e
      = (findByEmail s e).map
          (fun u => if u.id == i then { u with is_active := true } else u) := by
  induction s with
  | nil => rfl
  | cons v s ih =>
    unfold setActive findByEmail at *
    rw [List.map_cons]
    cases hv : v.email == e with
    | true =>
        have hv' : ((if v.id == i then { v with is_active := true } else v).email == e)
            = true := by rw [setActive_email]; exact hv
        rw [find_cons_pos _ hv', find_cons_pos _ hv]
        rfl
    | false =>
        have hv' : ((if v.id == i then { v with is_active := true } else v).email == e)
            = false := by rw [setActive_email]; exact hv
        rw [find_cons_neg _ hv', find_cons_neg _ hv]
        exact ih

theorem findById_setActive_self {s : Store} {i : Nat} {u : User}
    (h : findById s i = some u) :
    findById (setActive s i) i = some { u with is_active := true } := by
  induction s with
  | nil => exact absurd h (by simp [findById])
  | cons v s ih =>
    unfold setActive findById at *
    rw [List.map_cons]
    by_cases hv : (v.id == i) = true
    · rw [find_cons_pos _ hv] at h
      injection h with h
      subst h
      rw [if_pos hv]
      exact find_cons_pos _ hv
    · have hv' : (v.id == i) = false := by
        cases hb : v.id == i
        · rfl
        · exact absurd hb hv
      rw [find_cons_neg _ hv'] at h
      rw [if_neg hv]
      rw [find_cons_neg _ hv']
      exact ih h

theorem mem_setActive_of_active {u : User} {s : Store} (i : Nat)
    (hm : u ∈ s) (ha : u.is_active = true) : u ∈ setActive s i := by
  have hfix : (if u.id == i then { u with is_active := true } else u) = u := by
    cases u with
    | mk uid em pw act =>
        cases act with
        | true => split <;> rfl
        | false => exact Bool.noConfusion ha
  unfold setActive
  exact hfix ▸ List.mem_map_of_mem _ hm

theorem signupValid_parts {s : Store} {r : Credentials}
    (h : signupValid s r = true) :
    valid_email r.email = true ∧ findByEmail s r.email = none ∧ r.password ≠ "" := by
  simp only [signupValid, Bool.and_eq_true, Option.isNone_iff_eq_none, bne_iff_ne,
    ne_eq] at h
  exact ⟨h.1.1, h.1.2, h.2⟩

theorem newUser_id (s : Store) (r : Credentials) : (newUser s r).id = freshId s := rfl

theorem newUser_email (s : Store) (r : Credentials) :
    (newUser s r).email = normalize_email r.email := rfl

theorem newUser_password (s : Store) (r : Credentials) :
    (newUser s r).password = make_password r.password := rfl

theorem newUser_is_active (s : Store) (r : Credentials) :
    (newUser s r).is_active = false := rfl

theorem resend_store_unchanged (s : Store) (e : Option String)
    (d : Except String Unit) : (resend_verification_mail s e d).1 = s := by
  cases e with
  | none => rfl
  | some e1 =>
      by_cases hb : (e1 == "") = true
      · simp [resend_verification_mail, hb]
      · cases hf : findByEmail s e1 with
        | none => simp [resend_verification_mail, hb, hf]
        | some v =>
            cases hv : v.is_active with
            | true => simp [resend_verification_mail, hb, hf, hv]
            | false =>
                cases d with
                | error m => simp [resend_verification_mail, hb, hf, hv]
                | ok m => simp [resend_verification_mail, hb, hf, hv]

/-! ### Claims -/

/-- Claim C3: if email dispatch raises during signup, the just-created user
is deleted before the response is returned — the store is exactly as it was
and holds no user for that email — and signup answers 400 with the wrapped
dispatch failure reason. -/
theorem C3_signup_dispatch_failure (s : Store) (r : Credentials) (e : String)
    (hv : signupValid s r = true) :
    signup s r (.error e)
        = (s, { status := 400,
                body := .message ("failed to send verification email: " ++ e) })
      ∧ findByEmail s r.email = none := by
  refine ⟨?_, (signupValid_parts hv).2.1⟩
  unfold signup
  rw [if_pos hv]
  rw [deleteUser_append_fresh s (newUser s r) rfl]

/-- Witness for C3 at a concrete store, payload and dispatch error. -/
theorem C3_signup_dispatch_failure_witness :
    signupValid [] ⟨"a@x.com", "p1"⟩ = true
      ∧ signup [] ⟨"a@x.com", "p1"⟩ (.error "smtp down")
          = ([], { status := 400,
                   body := .message ("failed to send verification email: "
                     ++ "smtp down") })
      ∧ findByEmail [] "a@x.com" = none :=
  ⟨by decide,
   (C3_signup_dispatch_failure [] ⟨"a@x.com", "p1"⟩ "smtp down" (by decide)).1,
   (C3_signup_dispatch_failure [] ⟨"a@x.com", "p1"⟩ "smtp down" (by decide)).2⟩

/-- Claim C4: a token whose embedded timestamp is older than `TOKEN_EXPIRY`
makes `confirm_email` answer 400 "Token has expired. Request a new one." and
never the "Invalid token" response, whatever the signature bit. -/
theorem C4_confirm_expired_token (s : Store) (t : SignedToken)
    (token_expiry now : Nat) (h : now - t.timestamp > token_expiry) :
    confirm_email s t token_expiry now
        = (s, { status := 400,
                body := .message "Token has expired. Request a new one." })
      ∧ (confirm_email s t token_expiry now).2.body ≠ Body.message "Invalid token" := by
  have hu : unsign t token_expiry now = .error .expired := by
    unfold unsign
    rw [if_pos h]
  have hc : confirm_email s t token_expiry now
      = (s, { status := 400,
              body := .message "Token has expired. Request a new one." }) := by
    unfold confirm_email
    rw [hu]
  exact ⟨hc, by rw [hc]; simp⟩

/-- Witness for C4 at a concrete over-age token whose signature bit is even
false. -/
theorem C4_confirm_expired_token_witness :
    (100 : Nat) - 0 > 10
      ∧ confirm_email [] ⟨1, 0, false⟩ 10 100
          = ([], { status := 400,
                   body := .message "Token has expired. Request a new one." }) :=
  ⟨by decide, (C4_confirm_expired_token [] ⟨1, 0, false⟩ 10 100 (by decide)).1⟩

/-- Claim C5 counterexample: with one existing inactive user and a failing
transport, resend answers 404 "Not Found" — not a 400 EmailDispatchError as
the claim states. -/
theorem C5_resend_dispatch_counterexample :
    findByEmail [⟨1, "a@x.com", make_password "p1", false⟩] "a@x.com"
        = some ⟨1, "a@x.com", make_password "p1", false⟩
      ∧ (⟨1, "a@x.com", make_password "p1", false⟩ : User).is_active = false
      ∧ (resend_verification_mail [⟨1, "a@x.com", make_password "p1", false⟩]
          (some "a@x.com") (.error "smtp down")).2
          = { status := 404, body := .message "Not Found" }
      ∧ (404 : Nat) ≠ 400 :=
  ⟨by decide, by decide, by decide, by decide⟩

/-- Claim C5 (amended): for a resend request naming an existing inactive
user whose dispatch fails, no user row is deleted (the store is returned
unchanged) and the failure surfaces through the fallback exception handler
as 404 "Not Found" rather than a 400 dispatch error. -/
theorem C5_resend_dispatch_failure (s : Store) (e msg : String) (u : User)
    (hne : (e == "") = false) (hf : findByEmail s e = some u)
    (hin : u.is_active = false) :
    resend_verification_mail s (some e) (.error msg)
      = (s, { status := 404, body := .message "Not Found" }) := by
  simp [resend_verification_mail, hne, hf, hin]

/-- Witness for C5 at a concrete inactive user and dispatch error. -/
theorem C5_resend_dispatch_failure_witness :
    resend_verification_mail [⟨2, "b@x.com", make_password "q", false⟩]
        (some "b@x.com") (.error "boom")
      = ([⟨2, "b@x.com", make_password "q", false⟩],
         { status := 404, body := .message "Not Found" }) :=
  C5_resend_dispatch_failure [⟨2, "b@x.com", make_password "q", false⟩]
    "b@x.com" "boom" ⟨2, "b@x.com", make_password "q", false⟩
    (by decide) (by decide) (by decide)

/-- Claim C6: login with an email matching no user and login with an
existing user's email but a wrong password produce identical responses —
the same 401 status and the same "Invalid email or password." message. -/
theorem C6_login_enumeration_safe (s1 s2 : Store) (r1 r2 : Credentials) (u : User)
    (hf1 : loginFieldValid r1 = true) (hf2 : loginFieldValid r2 = true)
    (h1 : findByEmail s1 r1.email = none)
    (h2 : findByEmail s2 r2.email = some u)
    (hp : check_password r2.password u.password = false) :
    login s1 r1 = login s2 r2
      ∧ (login s1 r1).status = 401
      ∧ (login s1 r1).body = Body.message "Invalid email or password." := by
  have e1 : login s1 r1
      = { status := 401, body := .message "Invalid email or password." } := by
    unfold login
    rw [if_pos hf1, h1]
  have e2 : login s2 r2
      = { status := 401, body := .message "Invalid email or password." } := by
    simp [login, hf2, h2, hp]
  exact ⟨e1.trans e2.symm, by rw [e1], by rw [e1]⟩

/-- Witness for C6: empty store with one payload versus a store holding an
active user and a wrong-password payload. -/
theorem C6_login_enumeration_safe_witness :
    login [] ⟨"a@x.com", "p1"⟩
        = login [⟨1, "b@x.com", make_password "p2", true⟩] ⟨"b@x.com", "wrong"⟩
      ∧ (login [] ⟨"a@x.com", "p1"⟩).status = 401 :=
  ⟨(C6_login_enumeration_safe [] [⟨1, "b@x.com", make_password "p2", true⟩]
      ⟨"a@x.com", "p1"⟩ ⟨"b@x.com", "wrong"⟩ ⟨1, "b@x.com", make_password "p2", true⟩
      (by decide) (by decide) (by decide) (by decide) (by decide)).1,
   (C6_login_enumeration_safe [] [⟨1, "b@x.com", make_password "p2", true⟩]
      ⟨"a@x.com", "p1"⟩ ⟨"b@x.com", "wrong"⟩ ⟨1, "b@x.com", make_password "p2", true⟩
      (by decide) (by decide) (by decide) (by decide) (by decide)).2.1⟩

/-- Claim C7: confirming twice with the same valid unexpired token for an
existing inactive user: the first call activates the user and answers 200,
the second answers 400 "Email is already verified.", not success. -/
theorem C7_confirm_twice (s : Store) (u : User)
    (i ts token_expiry now1 now2 : Nat)
    (hf : findById s i = some u) (hin : u.is_active = false)
    (h1 : now1 - ts ≤ token_expiry) (h2 : now2 - ts ≤ token_expiry) :
    confirm_email s ⟨i, ts, true⟩ token_expiry now1
        = (setActive s i,
           { status := 200, body := .message "Email verified successfully!" })
      ∧ confirm_email (setActive s i) ⟨i, ts, true⟩ token_expiry now2
        = (setActive s i,
           { status := 400, body := .message "Email is already verified." }) := by
  have hu1 : unsign ⟨i, ts, true⟩ token_expiry now1 = .ok i := by
    unfold unsign
    rw [if_neg (Nat.not_lt.mpr h1)]
    simp
  have hu2 : unsign ⟨i, ts, true⟩ token_expiry now2 = .ok i := by
    unfold unsign
    rw [if_neg (Nat.not_lt.mpr h2)]
    simp
  constructor
  · simp [confirm_email, hu1, hf, hin]
  · have hf2 : findById (setActive s i) i = some { u with is_active := true } :=
      findById_setActive_self hf
    simp [confirm_email, hu2, hf2]

/-- Witness for C7 at a concrete store and token. -/
theorem C7_confirm_twice_witness :
    confirm_email [⟨1, "a@x.com", make_password "p", false⟩] ⟨1, 0, true⟩ 10 3
        = (setActive [⟨1, "a@x.com", make_password "p", false⟩] 1,
           { status := 200, body := .message "Email verified successfully!" })
      ∧ confirm_email (setActive [⟨1, "a@x.com", make_password "p", false⟩] 1)
          ⟨1, 0, true⟩ 10 5
        = (setActive [⟨1, "a@x.com", make_password "p", false⟩] 1,
           { status := 400, body := .message "Email is already verified." }) :=
  C7_confirm_twice [⟨1, "a@x.com", make_password "p", false⟩]
    ⟨1, "a@x.com", make_password "p", false⟩ 1 0 10 3 5
    (by decide) (by decide) (by decide) (by decide)

/-- Claim C9: whenever `confirm_email` answers a non-200 status, the store
is returned unchanged — no user record is modified. -/
theorem C9_confirm_non200_preserves_store (s : Store) (t : SignedToken)
    (token_expiry now : Nat)
    (h : (confirm_email s t token_expiry now).2.status ≠ 200) :
    (confirm_email s t token_expiry now).1 = s := by
  cases hu : unsign t token_expiry now with
  | error err => cases err <;> simp [confirm_email, hu]
  | ok uid =>
      cases hfm : findById s uid with
      | none => simp [confirm_email, hu, hfm]
      | some u =>
          cases hb : u.is_active with
          | true => simp [confirm_email, hu, hfm, hb]
          | false =>
              exfalso
              apply h
              simp [confirm_email, hu, hfm, hb]

/-- Witness for C9 at a concrete expired-token request. -/
theorem C9_confirm_non200_preserves_store_witness :
    (confirm_email [] ⟨1, 0, true⟩ 10 100).2.status ≠ 200
      ∧ (confirm_email [] ⟨1, 0, true⟩ 10 100).1 = [] :=
  ⟨by decide, C9_confirm_non200_preserves_store [] ⟨1, 0, true⟩ 10 100 (by decide)⟩

/-- Claim C10: an active user survives every request unchanged.  The three
handlers that return a store — `signup` (including its compensating delete,
which only removes the freshly created row), `confirm_email` and
`resend_verification_mail` — keep the active user's row intact; `login` and
`refresh_token` return no store at all and cannot modify it. -/
theorem C10_active_user_preserved (s : Store) (u : User)
    (hm : u ∈ s) (ha : u.is_active = true) (r : Credentials)
    (d1 d2 : Except String Unit) (t : SignedToken) (token_expiry now : Nat)
    (e : Option String) :
    u ∈ (signup s r d1).1
      ∧ u ∈ (confirm_email s t token_expiry now).1
      ∧ u ∈ (resend_verification_mail s e d2).1 := by
  refine ⟨?_, ?_, ?_⟩
  · unfold signup
    by_cases hv : signupValid s r = true
    · rw [if_pos hv]
      cases d1 with
      | error msg =>
          show u ∈ deleteUser (s ++ [newUser s r]) (freshId s)
          unfold deleteUser
          refine List.mem_filter.mpr ⟨List.mem_append_left _ hm, ?_⟩
          simp only [bne_iff_ne, ne_eq]
          exact Nat.ne_of_lt (mem_id_lt_freshId hm)
      | ok m =>
          show u ∈ s ++ [newUser s r]
          exact List.mem_append_left _ hm
    · rw [if_neg hv]
      exact hm
  · cases hu : unsign t token_expiry now with
    | error err => cases err <;> simpa [confirm_email, hu] using hm
    | ok uid =>
        cases hfm : findById s uid with
        | none => simpa [confirm_email, hu, hfm] using hm
        | some v =>
            cases hb : v.is_active with
            | true => simpa [confirm_email, hu, hfm, hb] using hm
            | false =>
                have hiu : u ∈ setActive s uid := mem_setActive_of_active uid hm ha
                simpa [confirm_email, hu, hfm, hb] using hiu
  · rw [resend_store_unchanged]
    exact hm

/-- Witness for C10 at a concrete active user across the three handlers. -/
theorem C10_active_user_preserved_witness :
    (⟨1, "a@x.com", make_password "p", true⟩ : User)
        ∈ (signup [⟨1, "a@x.com", make_password "p", true⟩] ⟨"b@x.com", "q"⟩
            (.error "x")).1
      ∧ (⟨1, "a@x.com", make_password "p", true⟩ : User)
        ∈ (confirm_email [⟨1, "a@x.com", make_password "p", true⟩] ⟨1, 0, true⟩
            10 5).1
      ∧ (⟨1, "a@x.com", make_password "p", true⟩ : User)
        ∈ (resend_verification_mail [⟨1, "a@x.com", make_password "p", true⟩]
            (some "a@x.com") (.error "y")).1 :=
  C10_active_user_preserved [⟨1, "a@x.com", make_password "p", true⟩]
    ⟨1, "a@x.com", make_password "p", true⟩ (by decide) (by decide)
    ⟨"b@x.com", "q"⟩ (.error "x") (.error "y") ⟨1, 0, true⟩ 10 5 (some "a@x.com")

/-- Claim C8 counterexample: a refresh request with the `refresh` field
missing fails serializer validation and is answered with the 400
field-error body, not the "Invalid refresh token." error the claim requires
of every validation failure. -/
theorem C8_refresh_missing_field_counterexample :
    refresh_token none
        = { status := 400,
            body := .fieldErrors [("refresh", "This field is required.")] }
      ∧ Body.fieldErrors [("refresh", "This field is required.")]
          ≠ Body.message "Invalid refresh token." :=
  ⟨by decide, by decide⟩

/-- Claim C8 (amended): for a request carrying a nonblank refresh string,
a validating token is answered 200 with exactly one fresh access token and
no refresh token, and a failing token validation is answered 400 "Invalid
refresh token."; a request whose `refresh` field is missing or blank is
instead answered 400 with the serializer field error. -/
theorem C8_refresh_token_responses (t : JwtInput) :
    (jwt_valid t = true →
      refresh_token (some (.tok t))
        = { status := 200,
            body := .accessOnly { userId := t.userId, kind := .access } })
      ∧ (jwt_valid t = false →
        refresh_token (some (.tok t))
          = { status := 400, body := .message "Invalid refresh token." })
      ∧ refresh_token none
        = { status := 400,
            body := .fieldErrors [("refresh", "This field is required.")] }
      ∧ refresh_token (some .blank)
        = { status := 400,
            body := .fieldErrors [("refresh", "This field may not be blank.")] } := by
  refine ⟨fun h => ?_, fun h => ?_, rfl, rfl⟩
  · simp [refresh_token, h]
  · simp [refresh_token, h]

/-- Witness for C8 at a concrete valid and a concrete invalid token. -/
theorem C8_refresh_token_responses_witness :
    refresh_token (some (.tok ⟨7, true, true, false⟩))
        = { status := 200, body := .accessOnly { userId := 7, kind := .access } }
      ∧ refresh_token (some (.tok ⟨7, true, false, false⟩))
        = { status := 400, body := .message "Invalid refresh token." } :=
  ⟨(C8_refresh_token_responses ⟨7, true, true, false⟩).1 (by decide),
   (C8_refresh_token_responses ⟨7, true, false, false⟩).2.1 (by decide)⟩

/-- Claim C1 counterexample: a login request whose user is absent but whose
password field is blank fails serializer field validation and is answered
400, not the 401 the claim requires for every absent-user request. -/
theorem C1_login_blank_password_counterexample :
    findByEmail [] "a@x.com" = none
      ∧ (login [] ⟨"a@x.com", ""⟩).status = 400
      ∧ (login [] ⟨"a@x.com", ""⟩).status ≠ 401 :=
  ⟨by decide, by decide, by decide⟩

/-- Claim C1 (amended): login returns a token pair (with status 200) only if
the looked-up user exists, is active, and the password check succeeds; every
request passing serializer field validation whose user is absent, whose
password mismatches, or whose user is inactive is answered 401 with no
tokens; a request failing field validation is answered 400, also with no
tokens. -/
theorem C1_login_token_pair_invariant (s : Store) (r : Credentials) :
    (∀ rt ac m, (login s r).body = Body.loginTokens rt ac m →
       ∃ u, findByEmail s r.email = some u
         ∧ check_password r.password u.password = true
         ∧ u.is_active = true
         ∧ (login s r).status = 200)
      ∧ (loginFieldValid r = true →
         (∀ u, findByEmail s r.email = some u →
            check_password r.password u.password = false ∨ u.is_active = false) →
         (login s r).status = 401
           ∧ ∀ rt ac m, (login s r).body ≠ Body.loginTokens rt ac m)
      ∧ (loginFieldValid r = false →
         (login s r).status = 400
           ∧ ∀ rt ac m, (login s r).body ≠ Body.loginTokens rt ac m) := by
  by_cases hv : loginFieldValid r = true
  · cases hf : findByEmail s r.email with
    | none =>
        have hl : login s r
            = { status := 401, body := .message "Invalid email or password." } := by
          simp [login, hv, hf]
        refine ⟨?_, ?_, ?_⟩
        · intro rt ac m hbody
          rw [hl] at hbody
          exact absurd hbody (by simp)
        · intro _ _
          rw [hl]
          exact ⟨rfl, fun rt ac m => by simp⟩
        · intro hcontra
          rw [hv] at hcontra
          exact Bool.noConfusion hcontra
    | some u =>
        cases hc : check_password r.password u.password with
        | false =>
            have hl : login s r
                = { status := 401, body := .message "Invalid email or password." } := by
              simp [login, hv, hf, hc]
            refine ⟨?_, ?_, ?_⟩
            · intro rt ac m hbody
              rw [hl] at hbody
              exact absurd hbody (by simp)
            · intro _ _
              rw [hl]
              exact ⟨rfl, fun rt ac m => by simp⟩
            · intro hcontra
              rw [hv] at hcontra
              exact Bool.noConfusion hcontra
        | true =>
            cases hb : u.is_active with
            | false =>
                have hl : login s r
                    = { status := 401,
                        body := .message
                          "Email not verified. Please verify your email." } := by
                  simp [login, hv, hf, hc, hb]
                refine ⟨?_, ?_, ?_⟩
                · intro rt ac m hbody
                  rw [hl] at hbody
                  exact absurd hbody (by simp)
                · intro _ _
                  rw [hl]
                  exact ⟨rfl, fun rt ac m => by simp⟩
                · intro hcontra
                  rw [hv] at hcontra
                  exact Bool.noConfusion hcontra
            | true =>
                have hl : login s r
                    = { status := 200,
                        body := .loginTokens { userId := u.id, kind := .refresh }
                          { userId := u.id, kind := .access } "Login successful" } := by
                  simp [login, hv, hf, hc, hb]
                refine ⟨?_, ?_, ?_⟩
                · intro rt ac m _
                  exact ⟨u, rfl, hc, hb, by rw [hl]⟩
                · intro _ hcase
                  rcases hcase u rfl with hx | hx
                  · rw [hc] at hx
                    exact Bool.noConfusion hx
                  · rw [hb] at hx
                    exact Bool.noConfusion hx
                · intro hcontra
                  rw [hv] at hcontra
                  exact Bool.noConfusion hcontra
  · have hv0 : loginFieldValid r = false := by
      cases hb : loginFieldValid r
      · rfl
      · exact absurd hb hv
    have hl : login s r
        = { status := 400, body := .fieldErrors (credFieldErrors r) } := by
      simp [login, hv0]
    refine ⟨?_, ?_, ?_⟩
    · intro rt ac m hbody
      rw [hl] at hbody
      exact absurd hbody (by simp)
    · intro hcontra
      rw [hv0] at hcontra
      exact Bool.noConfusion hcontra
    · intro _
      rw [hl]
      exact ⟨rfl, fun rt ac m => by simp⟩

/-- Witness for C1: a field-valid wrong-password request against an active
user is answered 401. -/
theorem C1_login_token_pair_invariant_witness :
    (login [⟨1, "a@x.com", make_password "p1", true⟩] ⟨"a@x.com", "nope"⟩).status
      = 401 :=
  ((C1_login_token_pair_invariant [⟨1, "a@x.com", make_password "p1", true⟩]
      ⟨"a@x.com", "nope"⟩).2.1 (by decide)
    (fun u hu => by
      have he : (⟨1, "a@x.com", make_password "p1", true⟩ : User) = u := by
        have hu' : some (⟨1, "a@x.com", make_password "p1", true⟩ : User) = some u := by
          rw [← hu]
          decide
        injection hu'
      subst he
      left
      decide)).1

/-- Claim C2 counterexample: for the well-formed, unregistered payload with
email "a@X.com", signup answers 201 and confirming a fresh unexpired token
activates the created user, yet a subsequent login with the same email and
password answers 401: the row was stored under the normalised address
"a@x.com" while the login lookup uses the raw address. -/
theorem C2_mixed_case_email_counterexample :
    valid_email "a@X.com" = true
      ∧ findByEmail [] "a@X.com" = none
      ∧ (signup [] ⟨"a@X.com", "p1"⟩ (.ok ())).2.status = 201
      ∧ (confirm_email (signup [] ⟨"a@X.com", "p1"⟩ (.ok ())).1
          ⟨1, 0, true⟩ 10 5).2.status = 200
      ∧ (login (confirm_email (signup [] ⟨"a@X.com", "p1"⟩ (.ok ())).1
          ⟨1, 0, true⟩ 10 5).1 ⟨"a@X.com", "p1"⟩).status = 401 :=
  ⟨by decide, by decide, by decide, by decide, by decide⟩

/-- Claim C2 (amended): for every well-formed `{email, password}` whose
email is its own case-normal form (domain already lowercase) and is not
already registered, signup with successful dispatch answers 201, confirming
with a freshly signed unexpired token for the created user's id activates
that user (200), and a subsequent login with the same email and password
answers 200 with a refresh and an access token. -/
theorem C2_signup_confirm_login (s : Store) (r : Credentials)
    (hwf : valid_email r.email = true) (hpw : (r.password != "") = true)
    (hfresh : findByEmail s r.email = none)
    (hnorm : normalize_email r.email = r.email)
    (ts token_expiry now : Nat) (hage : now - ts ≤ token_expiry) :
    (signup s r (.ok ())).2.status = 201
      ∧ (confirm_email (signup s r (.ok ())).1 ⟨freshId s, ts, true⟩
          token_expiry now).2
        = { status := 200, body := .message "Email verified successfully!" }
      ∧ login (confirm_email (signup s r (.ok ())).1 ⟨freshId s, ts, true⟩
          token_expiry now).1 r
        = { status := 200,
            body := .loginTokens { userId := freshId s, kind := .refresh }
              { userId := freshId s, kind := .access } "Login successful" } := by
  have hv : signupValid s r = true := by
    simp [signupValid, hwf, hfresh, hpw]
  have hs1 : (signup s r (.ok ())).1 = s ++ [newUser s r] := by
    simp [signup, hv]
  have hst : (signup s r (.ok ())).2.status = 201 := by
    simp [signup, hv]
  have hfid : findById (s ++ [newUser s r]) (freshId s) = some (newUser s r) :=
    findById_append_fresh s (newUser s r) rfl
  have hunsign : unsign ⟨freshId s, ts, true⟩ token_expiry now = .ok (freshId s) := by
    unfold unsign
    rw [if_neg (Nat.not_lt.mpr hage)]
    simp
  have hconf : confirm_email (s ++ [newUser s r]) ⟨freshId s, ts, true⟩
      token_expiry now
      = (setActive (s ++ [newUser s r]) (freshId s),
         { status := 200, body := .message "Email verified successfully!" }) := by
    simp [confirm_email, hunsign, hfid, newUser_is_active]
  have hfv : loginFieldValid r = true := by
    simp [loginFieldValid, hwf, hpw]
  have hfe1 : findByEmail (s ++ [newUser s r]) r.email = some (newUser s r) := by
    unfold findByEmail
    rw [find_append_of_none _ _ hfresh]
    exact find_cons_pos _ (by rw [newUser_email, hnorm]; simp)
  have hfe2 : findByEmail (setActive (s ++ [newUser s r]) (freshId s)) r.email
      = some { newUser s r with is_active := true } := by
    rw [findByEmail_setActive, hfe1]
    simp [newUser_id]
  have hlogin : login (setActive (s ++ [newUser s r]) (freshId s)) r
      = { status := 200,
          body := .loginTokens { userId := freshId s, kind := .refresh }
            { userId := freshId s, kind := .access } "Login successful" } := by
    simp [login, hfv, hfe2, check_password, newUser_password, newUser_id]
  refine ⟨hst, ?_, ?_⟩
  · rw [hs1, hconf]
  · rw [hs1, hconf]
    exact hlogin

/-- Witness for C2 at a concrete payload, clock and expiry. -/
theorem C2_signup_confirm_login_witness :
    (signup [] ⟨"a@x.com", "p1"⟩ (.ok ())).2.status = 201
      ∧ (confirm_email (signup [] ⟨"a@x.com", "p1"⟩ (.ok ())).1
          ⟨freshId [], 0, true⟩ 10 5).2
        = { status := 200, body := .message "Email verified successfully!" }
      ∧ login (confirm_email (signup [] ⟨"a@x.com", "p1"⟩ (.ok ())).1
          ⟨freshId [], 0, true⟩ 10 5).1 ⟨"a@x.com", "p1"⟩
        = { status := 200,
            body := .loginTokens { userId := freshId [], kind := .refresh }
              { userId := freshId [], kind := .access } "Login successful" } :=
  C2_signup_confirm_login [] ⟨"a@x.com", "p1"⟩ (by decide) (by decide)
    (by decide) (by decide) 0 10 5 (by decide)

end DrfAuth
